import Mathlib

set_option maxRecDepth 8192
set_option linter.unusedVariables false

namespace Pendant

/-- Dynamic values, embedding the Python values that flow through the
pendant library: integers, strings, lists, string-keyed dictionaries and
the None object. -/
inductive PyVal where
  | int (i : Int)
  | str (s : String)
  | list (xs : List PyVal)
  | dict (xs : List (String × PyVal))
  | pyNone

/-- A Python dictionary with string keys, as an association list. -/
abbrev PyDict := List (String × PyVal)

/-- Error kinds raised by the embedded code.  Message payloads are not
modelled; each constructor is one exception class of the source. -/
inductive PyError where
  | assertionError
  | batchJobSubmissionError
  | s3ObjectNotFoundError
  | keyError (key : String)
  | valueError
  | typeError
  | attributeError
deriving DecidableEq, Repr

/-- Lookup of a key in a dictionary, first binding wins. -/
def pyLookup (d : PyDict) (k : String) : Option PyVal :=
  match d with
  | [] => none
  | (k', v) :: rest => if k' = k then some v else pyLookup rest k

/-- Embeds the Python expression d.get(k, dflt) on a dictionary. -/
def pyGet (d : PyDict) (k : String) (dflt : PyVal) : PyVal :=
  (pyLookup d k).getD dflt

/-- Embeds the Python expression d[k] on a dictionary: a missing key
raises KeyError. -/
def getItem (d : PyDict) (k : String) : Except PyError PyVal :=
  match pyLookup d k with
  | some v => .ok v
  | none => .error (.keyError k)

/-- Python truthiness for the modelled values. -/
def PyVal.isTruthy : PyVal → Bool
  | .int i => i != 0
  | .str s => !s.isEmpty
  | .list xs => !xs.isEmpty
  | .dict xs => !xs.isEmpty
  | .pyNone => false

/-- Embeds v.get(k, dflt): valid on a dictionary, AttributeError on any
other value. -/
def PyVal.get (v : PyVal) (k : String) (dflt : PyVal) : Except PyError PyVal :=
  match v with
  | .dict d => .ok (pyGet d k dflt)
  | _ => .error .attributeError

/-- Embeds v[k]: key lookup on a dictionary, TypeError on any other
value. -/
def PyVal.getItem (v : PyVal) (k : String) : Except PyError PyVal :=
  match v with
  | .dict d => Pendant.getItem d k
  | _ => .error .typeError

/-- Embeds the Python comparison v == n against an integer literal. -/
def pyEqInt (v : PyVal) (n : Int) : Bool :=
  match v with
  | .int i => i == n
  | _ => false

/-- Embedding of pendant.aws.response.SubmitJobResponse: the fields
computed by its constructor from the raw reply mapping. -/
structure SubmitJobResponse where
  response : PyDict
  metadata : PyVal
  job_name : PyVal
  job_id : PyVal

/-- Embeds SubmitJobResponse.__init__, which reads ResponseMetadata,
jobName and jobId from the reply with response.get defaults. -/
def mkSubmitJobResponse (response : PyDict) : SubmitJobResponse :=
  { response := response
    metadata := pyGet response "ResponseMetadata" (.dict [])
    job_name := pyGet response "jobName" .pyNone
    job_id := pyGet response "jobId" .pyNone }

/-- Embeds SubmitJobResponse.http_code: metadata.get of HTTPStatusCode
with default 500. -/
def SubmitJobResponse.http_code (r : SubmitJobResponse) : Except PyError PyVal :=
  r.metadata.get "HTTPStatusCode" (.int 500)

/-- Embeds SubmitJobResponse.is_ok: the comparison http_code() == 200. -/
def SubmitJobResponse.is_ok (r : SubmitJobResponse) : Except PyError Bool := do
  let code ← r.http_code
  return pyEqInt code 200

lemma pyEqInt_eq_true_iff (v : PyVal) (n : Int) :
    pyEqInt v n = true ↔ v = .int n := by
  cases v <;> simp [pyEqInt]

lemma is_ok_eq_match (r : SubmitJobResponse) :
    r.is_ok = match r.http_code with
      | .ok c => .ok (pyEqInt c 200)
      | .error e => .error e := by
  cases h : r.http_code <;>
    simp [SubmitJobResponse.is_ok, h, bind, Except.bind, pure, Except.pure]

/-- Claim C5: for every service reply mapping, is_ok returns true exactly
when http_code returns 200, and http_code returns 500 when the reply is
missing ResponseMetadata or the metadata is missing HTTPStatusCode, in
which case the reply is not classified as a success and the accessor does
not raise. -/
theorem submitJobResponse_ok_iff_200 (response : PyDict) :
    ((mkSubmitJobResponse response).is_ok = .ok true ↔
      (mkSubmitJobResponse response).http_code = .ok (.int 200)) ∧
    (pyLookup response "ResponseMetadata" = none →
      (mkSubmitJobResponse response).http_code = .ok (.int 500) ∧
      (mkSubmitJobResponse response).is_ok = .ok false) ∧
    (∀ md, pyLookup response "ResponseMetadata" = some (.dict md) →
      pyLookup md "HTTPStatusCode" = none →
      (mkSubmitJobResponse response).http_code = .ok (.int 500) ∧
      (mkSubmitJobResponse response).is_ok = .ok false) := by
  refine ⟨?_, ?_, ?_⟩
  · rw [is_ok_eq_match]
    cases h : (mkSubmitJobResponse response).http_code with
    | ok c =>
        constructor
        · intro hc
          simp only [Except.ok.injEq] at hc
          rw [(pyEqInt_eq_true_iff c 200).mp hc]
        · intro hc
          simp only [Except.ok.injEq] at hc
          simp [hc, pyEqInt]
    | error e => simp
  · intro hnone
    have hmeta : (mkSubmitJobResponse response).metadata = .dict [] := by
      simp [mkSubmitJobResponse, pyGet, hnone]
    have hcode : (mkSubmitJobResponse response).http_code = .ok (.int 500) := by
      simp [SubmitJobResponse.http_code, hmeta, PyVal.get, pyGet, pyLookup]
    refine ⟨hcode, ?_⟩
    rw [is_ok_eq_match, hcode]
    simp [pyEqInt]
  · intro md hmd hnone
    have hmeta : (mkSubmitJobResponse response).metadata = .dict md := by
      simp [mkSubmitJobResponse, pyGet, hmd]
    have hcode : (mkSubmitJobResponse response).http_code = .ok (.int 500) := by
      simp [SubmitJobResponse.http_code, hmeta, PyVal.get, pyGet, hnone]
    refine ⟨hcode, ?_⟩
    rw [is_ok_eq_match, hcode]
    simp [pyEqInt]

/-- Witness for claim C5 at the empty reply and at a reply whose metadata
lacks HTTPStatusCode. -/
theorem submitJobResponse_ok_iff_200_witness :
    ((mkSubmitJobResponse []).http_code = .ok (.int 500) ∧
      (mkSubmitJobResponse []).is_ok = .ok false) ∧
    ((mkSubmitJobResponse [("ResponseMetadata", .dict [])]).http_code = .ok (.int 500) ∧
      (mkSubmitJobResponse [("ResponseMetadata", .dict [])]).is_ok = .ok false) :=
  ⟨(submitJobResponse_ok_iff_200 []).2.1 rfl,
   (submitJobResponse_ok_iff_200 [("ResponseMetadata", .dict [])]).2.2 [] rfl rfl⟩

/-- Embedding of pendant.aws.batch.JobDefinition.  The class is abstract:
name and validate are supplied by the concrete variant, so they are fields
here; validation holds the outcome of calling validate, and parameters
holds the mapping produced by to_dict from the declared constructor
fields. -/
structure JobDefinition where
  name : String
  revision : String
  validation : Except PyError Unit
  parameters : List (String × String)

/-- Embeds calling definition.validate(). -/
def JobDefinition.validate (d : JobDefinition) : Except PyError Unit :=
  d.validation

/-- Embedding of a Python datetime restricted to the six fields the
strftime format string of the source reads. -/
structure Datetime where
  year : Nat
  month : Nat
  day : Nat
  hour : Nat
  minute : Nat
  second : Nat
deriving DecidableEq

/-- Zero-padding to two digits, as strftime renders %m %d %H %M %S. -/
def pad2 (n : Nat) : String :=
  if n < 10 then "0" ++ toString n else toString n

/-- Embeds pendant.util.format_ISO8601, which is
moment.strftime of the pattern %Y-%m-%dT%H-%M-%S. -/
def format_ISO8601 (m : Datetime) : String :=
  toString m.year ++ "-" ++ pad2 m.month ++ "-" ++ pad2 m.day ++ "T" ++
    pad2 m.hour ++ "-" ++ pad2 m.minute ++ "-" ++ pad2 m.second

/-- Embeds JobDefinition.make_job_name for an explicitly supplied moment;
the source substitutes the current wall clock when the moment is omitted,
which has no counterpart in a pure embedding. -/
def JobDefinition.make_job_name (d : JobDefinition) (moment : Datetime) : String :=
  format_ISO8601 moment ++ "_" ++ d.name

/-- Claim C7: make_job_name is exactly the hyphenated ISO8601 rendering of
the moment, an underscore, and the definition name; at the moment
2018-02-23 12:13:38 with name foo it is the exact string
2018-02-23T12-13-38_foo. -/
theorem make_job_name_format :
    (∀ (d : JobDefinition) (m : Datetime),
      d.make_job_name m = format_ISO8601 m ++ "_" ++ d.name) ∧
    (∀ (d : JobDefinition), d.name = "foo" →
      d.make_job_name ⟨2018, 2, 23, 12, 13, 38⟩ = "2018-02-23T12-13-38_foo") := by
  constructor
  · intro d m
    rfl
  · intro d h
    show format_ISO8601 ⟨2018, 2, 23, 12, 13, 38⟩ ++ "_" ++ d.name = _
    rw [h]
    rfl

/-- Witness for claim C7 at a concrete definition named foo. -/
theorem make_job_name_format_witness :
    JobDefinition.make_job_name ⟨"foo", "0", .ok (), []⟩ ⟨2018, 2, 23, 12, 13, 38⟩ =
      "2018-02-23T12-13-38_foo" :=
  make_job_name_format.2 ⟨"foo", "0", .ok (), []⟩ rfl

/-- Embedding of the mutable fields of pendant.aws.batch.BatchJob.  The
boto3 client is an external collaborator and is not part of the state;
every method that performs a remote call takes the raw remote reply as an
explicit argument. -/
structure BatchJobState where
  definition : JobDefinition
  is_submitted : Bool
  container_overrides : PyDict
  job_id : PyVal
  queue : Option String
  submit_response : Option SubmitJobResponse

namespace BatchJob

/-- Field initialisation performed by BatchJob.__init__ after the
validate call has succeeded. -/
def init (d : JobDefinition) : BatchJobState :=
  { definition := d
    is_submitted := false
    container_overrides := []
    job_id := .pyNone
    queue := none
    submit_response := none }

end BatchJob

/-- Embeds BatchJob.__init__: it first runs definition.validate() and only
then initialises the fields, so a failing validation aborts construction
with that error. -/
def mkBatchJob (d : JobDefinition) : Except PyError BatchJobState :=
  match d.validate with
  | .ok _ => .ok (BatchJob.init d)
  | .error e => .error e

namespace BatchJob

/-- Embeds the static method BatchJob.describe_jobs applied to the raw
reply of the remote describe call: it indexes the reply at the key jobs. -/
def describe_jobs (reply : PyDict) : Except PyError PyVal :=
  Pendant.getItem reply "jobs"

/-- Embeds BatchJob.describe_job: unpacking the first record of the jobs
list raises ValueError when the list is empty, and a falsy record is
replaced by an empty dictionary. -/
def describe_job (reply : PyDict) : Except PyError PyVal := do
  let jobs ← describe_jobs reply
  match jobs with
  | .list [] => .error .valueError
  | .list (j :: _) => .ok (if j.isTruthy then j else .dict [])
  | _ => .error .typeError

/-- Embeds BatchJob.status: a job with no job id raises
BatchJobSubmissionError, otherwise the describe reply record is read at
the key status with the default NOTFOUND. -/
def status (s : BatchJobState) (reply : PyDict) : Except PyError PyVal :=
  match s.job_id with
  | .pyNone => .error .batchJobSubmissionError
  | _ => do
      let job ← describe_job reply
      job.get "status" (.str "NOTFOUND")

/-- Embeds BatchJob.cancel: the assert statement raises AssertionError on
an unsubmitted job, otherwise the raw remote reply is returned. -/
def cancel (s : BatchJobState) (reason : String) (reply : PyDict) :
    Except PyError PyDict :=
  if s.is_submitted then .ok reply else .error .assertionError

/-- Embeds BatchJob.terminate: the assert statement raises AssertionError
on an unsubmitted job, otherwise the raw remote reply is returned. -/
def terminate (s : BatchJobState) (reason : String) (reply : PyDict) :
    Except PyError PyDict :=
  if s.is_submitted then .ok reply else .error .assertionError

/-- Embeds BatchJob.log_stream_name: a job with no job id raises
BatchJobSubmissionError, otherwise the describe reply record is indexed at
container and then at logStreamName. -/
def log_stream_name (s : BatchJobState) (reply : PyDict) :
    Except PyError PyVal :=
  match s.job_id with
  | .pyNone => .error .batchJobSubmissionError
  | _ => do
      let job ← describe_job reply
      let container ← job.getItem "container"
      container.getItem "logStreamName"

/-- Embeds BatchJob.submit.  The queue and container override fields are
assigned before the remote call, so they survive a failed submission; on a
reply whose is_ok is true the state becomes submitted and captures the job
id and the wrapped response, and otherwise BatchJobSubmissionError is
raised with the state left as mutated.  The pair returned is the Python
result together with the state of self after the call. -/
def submit (s : BatchJobState) (queue : String) (overrides : Option PyDict)
    (response : PyDict) : Except PyError SubmitJobResponse × BatchJobState :=
  if s.is_submitted then (.error .assertionError, s)
  else
    let s1 := { s with
      queue := some queue
      container_overrides := overrides.getD [] }
    let sr := mkSubmitJobResponse response
    match sr.is_ok with
    | .ok true =>
        (.ok sr,
         { s1 with
            is_submitted := true
            job_id := sr.job_id
            submit_response := some sr })
    | .ok false => (.error .batchJobSubmissionError, s1)
    | .error e => (.error e, s1)

end BatchJob

/-- Claim C4: constructing a BatchJob first invokes validate on the
definition; construction fails with the validation error exactly when
validation fails, and succeeds with the freshly initialised state exactly
when validation succeeds. -/
theorem mkBatchJob_validates (d : JobDefinition) :
    (d.validate = .ok () → mkBatchJob d = .ok (BatchJob.init d)) ∧
    (∀ e, d.validate = .error e → mkBatchJob d = .error e) ∧
    ((∃ s, mkBatchJob d = .ok s) ↔ d.validate = .ok ()) := by
  refine ⟨?_, ?_, ?_⟩
  · intro h
    simp [mkBatchJob, h]
  · intro e h
    simp [mkBatchJob, h]
  · constructor
    · rintro ⟨s, hs⟩
      cases h : d.validate with
      | ok u => cases u; rfl
      | error e => simp [mkBatchJob, h] at hs
    · intro h
      exact ⟨BatchJob.init d, by simp [mkBatchJob, h]⟩

/-- Witness for claim C4 at a definition whose validation succeeds and one
whose validation fails with the object-not-found error of the source
tests. -/
theorem mkBatchJob_validates_witness :
    mkBatchJob ⟨"foo", "0", .ok (), []⟩ = .ok (BatchJob.init ⟨"foo", "0", .ok (), []⟩) ∧
    mkBatchJob ⟨"foo", "0", .error .s3ObjectNotFoundError, []⟩ =
      .error .s3ObjectNotFoundError :=
  ⟨(mkBatchJob_validates ⟨"foo", "0", .ok (), []⟩).1 rfl,
   (mkBatchJob_validates ⟨"foo", "0", .error .s3ObjectNotFoundError, []⟩).2.1
     .s3ObjectNotFoundError rfl⟩

namespace BatchJob

/-- States of a BatchJob that the library can actually produce: the state
right after construction, and the state after any submit call, whether it
succeeded or not.  Methods other than submit never assign to the
fields. -/
inductive Reachable (d : JobDefinition) : BatchJobState → Prop where
  | init : ∀ s, mkBatchJob d = .ok s → Reachable d s
  | step : ∀ s q o resp, Reachable d s → Reachable d (submit s q o resp).2

/-- State invariant that actually holds of reachable BatchJob states: the
submit response is present exactly when the job is submitted, and a job id
can be present only on a submitted job. -/
def StateInv (s : BatchJobState) : Prop :=
  (s.is_submitted = true ↔ s.submit_response.isSome = true) ∧
  (s.job_id ≠ .pyNone → s.is_submitted = true)

lemma submit_of_submitted (s : BatchJobState) (q : String) (o : Option PyDict)
    (resp : PyDict) (h : s.is_submitted = true) :
    submit s q o resp = (.error .assertionError, s) := by
  simp [submit, h]

lemma submit_state_of_unsubmitted (s : BatchJobState) (q : String)
    (o : Option PyDict) (resp : PyDict) (h : s.is_submitted = false) :
    (submit s q o resp).2 =
      (let s1 := { s with queue := some q, container_overrides := o.getD [] }
       let sr := mkSubmitJobResponse resp
       match sr.is_ok with
       | .ok true =>
          { s1 with
              is_submitted := true
              job_id := sr.job_id
              submit_response := some sr }
       | .ok false => s1
       | .error _ => s1) := by
  simp only [submit, h, Bool.false_eq_true, if_false]
  cases hk : (mkSubmitJobResponse resp).is_ok with
  | ok b => cases b <;> simp [hk]
  | error e => simp [hk]

end BatchJob

/-- Claim C1 amended: on every reachable BatchJob state, submitResponse is
present exactly when isSubmitted holds and jobId can be present only on a
submitted instance; at construction queueName, jobId and submitResponse
are all absent together, and any submit call on an unsubmitted instance
sets queueName whether or not the remote reply succeeds; a second submit
on a submitted instance fails leaving the state unchanged.  The original
all-absent-or-all-present grouping fails in both remaining directions:
submit assigns the queue before the remote call, so a submit whose reply
was not successful leaves the queue present with the other fields absent,
and a successful reply that lacks a jobId field leaves the instance
submitted with a response present but no job id. -/
theorem batchJob_state_invariant (d : JobDefinition) (s : BatchJobState)
    (h : BatchJob.Reachable d s) :
    BatchJob.StateInv s ∧
    (∀ s0, mkBatchJob d = .ok s0 →
      s0.queue = none ∧ s0.job_id = .pyNone ∧
      s0.submit_response = none ∧ s0.is_submitted = false) ∧
    (∀ (t : BatchJobState) (q : String) (o : Option PyDict) (resp : PyDict),
      t.is_submitted = false → (BatchJob.submit t q o resp).2.queue = some q) ∧
    (s.is_submitted = true → ∀ q o resp,
      BatchJob.submit s q o resp = (.error .assertionError, s)) := by
  have hinit : ∀ s0, mkBatchJob d = .ok s0 → s0 = BatchJob.init d := by
    intro s0 hs0
    cases hv : d.validate with
    | ok u =>
        cases u
        rw [mkBatchJob, hv] at hs0
        exact ((Except.ok.injEq _ _).mp hs0).symm
    | error e => rw [mkBatchJob, hv] at hs0; cases hs0
  have hattempt : ∀ (t : BatchJobState) (q : String) (o : Option PyDict)
      (resp : PyDict), t.is_submitted = false →
      (BatchJob.submit t q o resp).2.queue = some q := by
    intro t q o resp ht
    rw [BatchJob.submit_state_of_unsubmitted t q o resp ht]
    cases hk : (mkSubmitJobResponse resp).is_ok with
    | ok b => cases b <;> simp [hk]
    | error e => simp [hk]
  have hstate : ∀ (u : BatchJobState), BatchJob.Reachable d u →
      BatchJob.StateInv u := by
    intro u hu
    induction hu with
    | init u hu0 =>
        rw [hinit u hu0]
        refine ⟨?_, ?_⟩
        · simp [BatchJob.init]
        · intro hj; exact absurd rfl hj
    | step u q o resp hr ih =>
        obtain ⟨hiff, hjob⟩ := ih
        cases hsub : u.is_submitted with
        | true =>
            rw [BatchJob.submit_of_submitted u q o resp hsub]
            exact ⟨hiff, hjob⟩
        | false =>
            rw [BatchJob.submit_state_of_unsubmitted u q o resp hsub]
            have hresp : u.submit_response = none := by
              cases hr2 : u.submit_response with
              | none => rfl
              | some r => rw [hsub] at hiff; simp [hr2] at hiff
            have hjid : u.job_id = .pyNone := by
              by_contra hne
              rw [hjob hne] at hsub
              cases hsub
            cases hk : (mkSubmitJobResponse resp).is_ok with
            | ok b =>
                cases b with
                | true =>
                    simp only [hk]
                    exact ⟨by simp, by simp⟩
                | false =>
                    simp only [hk]
                    refine ⟨by simp [hsub, hresp], ?_⟩
                    intro hne
                    simp only [] at hne
                    exact absurd hjid hne
            | error e =>
                simp only [hk]
                refine ⟨by simp [hsub, hresp], ?_⟩
                intro hne
                simp only [] at hne
                exact absurd hjid hne
  refine ⟨hstate s h, ?_, hattempt,
    fun hsub q o resp => BatchJob.submit_of_submitted s q o resp hsub⟩
  intro s0 hs0
  rw [hinit s0 hs0]
  exact ⟨rfl, rfl, rfl, rfl⟩

/-- Shared concrete fixture: a trivially valid job definition. -/
def demoDefinition : JobDefinition :=
  { name := "foo", revision := "0", validation := .ok (), parameters := [] }

/-- Shared concrete fixture: a freshly constructed, never submitted
BatchJob over the demo definition. -/
def freshJob : BatchJobState :=
  BatchJob.init demoDefinition

/-- Shared concrete fixture: a submit reply carrying HTTP status 500. -/
def failedReply : PyDict :=
  [("ResponseMetadata", .dict [("HTTPStatusCode", .int 500)])]

/-- Concrete fixture for claim C1: a submit reply carrying HTTP status 200
but no jobId field. -/
def okNoIdReply : PyDict :=
  [("ResponseMetadata", .dict [("HTTPStatusCode", .int 200)])]

/-- Shared concrete fixture: a successful submit reply with a job id. -/
def okReply : PyDict :=
  [("ResponseMetadata", .dict [("HTTPStatusCode", .int 200)]),
   ("jobName", .str "2018-02-23T12-13-38_foo"),
   ("jobId", .str "job-1")]

/-- Shared concrete fixture: the state of a BatchJob after one successful
submit call. -/
def submittedJob : BatchJobState :=
  (BatchJob.submit freshJob "queue" none okReply).2

/-- Witness for the amended claim C1, applying the invariant theorem to
the concrete state reached by one failed submit call. -/
theorem batchJob_state_invariant_witness :
    BatchJob.StateInv (BatchJob.submit freshJob "queue" none failedReply).2 :=
  (batchJob_state_invariant demoDefinition
      (BatchJob.submit freshJob "queue" none failedReply).2
      (BatchJob.Reachable.step freshJob "queue" none failedReply
        (BatchJob.Reachable.init freshJob rfl))).1

/-- Counterexample to claim C1 as stated, in both remaining directions of
the all-absent-or-all-present grouping.  First, after a submit call on a
fresh BatchJob whose remote reply was not successful, the call raises, the
queue field is present, yet the job id and the submit response are still
absent and the job is not submitted.  Second, after a submit call whose
reply was successful but carried no jobId field, the instance is
submitted with a submit response present and isSubmitted true, yet the job
id is still absent, so isSubmitted is not equivalent to the presence of
all three fields. -/
theorem batchJob_state_invariant_counterexample :
    mkBatchJob demoDefinition = .ok freshJob ∧
    (BatchJob.submit freshJob "queue" none failedReply).1 =
      .error .batchJobSubmissionError ∧
    (BatchJob.submit freshJob "queue" none failedReply).2.queue = some "queue" ∧
    (BatchJob.submit freshJob "queue" none failedReply).2.job_id = .pyNone ∧
    (BatchJob.submit freshJob "queue" none failedReply).2.submit_response = none ∧
    (BatchJob.submit freshJob "queue" none failedReply).2.is_submitted = false ∧
    (BatchJob.submit freshJob "queue" none okNoIdReply).2.is_submitted = true ∧
    (BatchJob.submit freshJob "queue" none okNoIdReply).2.submit_response =
      some (mkSubmitJobResponse okNoIdReply) ∧
    (BatchJob.submit freshJob "queue" none okNoIdReply).2.queue = some "queue" ∧
    (BatchJob.submit freshJob "queue" none okNoIdReply).2.job_id = .pyNone :=
  ⟨rfl, rfl, rfl, rfl, rfl, rfl, rfl, rfl, rfl, rfl⟩

/-- Claim C2 amended: on a freshly constructed, never submitted BatchJob,
status and logStreamName fail with BatchJobSubmissionError while cancel
and terminate fail with AssertionError from their assert statements, and
submit on an already submitted instance also fails with AssertionError;
the five operations therefore guard submission state with two distinct
error kinds, not one. -/
theorem batchJob_error_kinds (d : JobDefinition) (s : BatchJobState)
    (hs : mkBatchJob d = .ok s) :
    (∀ reply, BatchJob.status s reply = .error .batchJobSubmissionError) ∧
    (∀ reason reply, BatchJob.cancel s reason reply = .error .assertionError) ∧
    (∀ reason reply, BatchJob.terminate s reason reply = .error .assertionError) ∧
    (∀ reply, BatchJob.log_stream_name s reply = .error .batchJobSubmissionError) ∧
    (∀ (s' : BatchJobState) q o resp, s'.is_submitted = true →
      (BatchJob.submit s' q o resp).1 = .error .assertionError) := by
  have hinit : s = BatchJob.init d := by
    cases hv : d.validate with
    | ok u =>
        cases u
        rw [mkBatchJob, hv] at hs
        exact ((Except.ok.injEq _ _).mp hs).symm
    | error e => rw [mkBatchJob, hv] at hs; cases hs
  subst hinit
  refine ⟨?_, ?_, ?_, ?_, ?_⟩
  · intro reply; rfl
  · intro reason reply; rfl
  · intro reason reply; rfl
  · intro reply; rfl
  · intro s' q o resp h
    rw [BatchJob.submit_of_submitted s' q o resp h]

/-- Witness for the amended claim C2 at the concrete fresh job and at the
concrete submitted job. -/
theorem batchJob_error_kinds_witness :
    BatchJob.status freshJob [] = .error .batchJobSubmissionError ∧
    BatchJob.cancel freshJob "reason" [] = .error .assertionError ∧
    BatchJob.terminate freshJob "reason" [] = .error .assertionError ∧
    BatchJob.log_stream_name freshJob [] = .error .batchJobSubmissionError ∧
    (BatchJob.submit submittedJob "queue" none okReply).1 =
      .error .assertionError := by
  have h := batchJob_error_kinds demoDefinition freshJob rfl
  exact ⟨h.1 [], h.2.1 "reason" [], h.2.2.1 "reason" [], h.2.2.2.1 [],
    h.2.2.2.2 submittedJob "queue" none okReply rfl⟩

/-- Counterexample to claim C2 as stated: at the concrete never submitted
job, status fails with BatchJobSubmissionError while cancel fails with
AssertionError, and a second submit on the concrete submitted job also
fails with AssertionError, so the operations do not share one single error
kind. -/
theorem batchJob_error_kinds_counterexample :
    BatchJob.status freshJob [] = .error .batchJobSubmissionError ∧
    BatchJob.cancel freshJob "reason" [] = .error .assertionError ∧
    (BatchJob.submit submittedJob "q2" none okReply).1 = .error .assertionError ∧
    PyError.batchJobSubmissionError ≠ PyError.assertionError :=
  ⟨rfl, rfl, rfl, by decide⟩

/-- Claim C3 amended: for a BatchJob with a job id, status reads the first
record of the jobs list in the describe reply and returns its status
field, returning the sentinel NOTFOUND when that record lacks a status
field; when the reply carries an empty jobs list the unpacking in
describe_job raises ValueError instead of returning the sentinel; and a
job with no job id fails with BatchJobSubmissionError. -/
theorem batchJob_status_spec (s : BatchJobState) (reply : PyDict) :
    (s.job_id = .pyNone →
      BatchJob.status s reply = .error .batchJobSubmissionError) ∧
    (s.job_id ≠ .pyNone →
      (pyLookup reply "jobs" = some (.list []) →
        BatchJob.status s reply = .error .valueError) ∧
      (∀ jd rest, pyLookup reply "jobs" = some (.list (.dict jd :: rest)) →
        BatchJob.status s reply = .ok (pyGet jd "status" (.str "NOTFOUND")))) := by
  constructor
  · intro hnone
    unfold BatchJob.status
    rw [hnone]
  · intro hne
    have hstat : ∀ r, BatchJob.status s reply = r →
        (do let job ← BatchJob.describe_job reply
            job.get "status" (.str "NOTFOUND")) = r := by
      intro r hr
      unfold BatchJob.status at hr
      cases hj : s.job_id with
      | pyNone => exact absurd hj hne
      | int i => rw [hj] at hr; exact hr
      | str v => rw [hj] at hr; exact hr
      | list v => rw [hj] at hr; exact hr
      | dict v => rw [hj] at hr; exact hr
    have hbody : BatchJob.status s reply =
        (do let job ← BatchJob.describe_job reply
            job.get "status" (.str "NOTFOUND")) := by
      unfold BatchJob.status
      cases hj : s.job_id with
      | pyNone => exact absurd hj hne
      | int i => rfl
      | str v => rfl
      | list v => rfl
      | dict v => rfl
    constructor
    · intro hjobs
      rw [hbody]
      have : BatchJob.describe_job reply = .error .valueError := by
        simp [BatchJob.describe_job, BatchJob.describe_jobs, Pendant.getItem,
          hjobs, bind, Except.bind]
      simp [this, bind, Except.bind]
    · intro jd rest hjobs
      rw [hbody]
      have hjob : BatchJob.describe_job reply =
          .ok (if (PyVal.dict jd).isTruthy then .dict jd else .dict []) := by
        simp [BatchJob.describe_job, BatchJob.describe_jobs, Pendant.getItem,
          hjobs, bind, Except.bind]
      rw [hjob]
      cases jd with
      | nil => simp [bind, Except.bind, PyVal.isTruthy, PyVal.get, pyGet, pyLookup]
      | cons p ps =>
          simp [bind, Except.bind, PyVal.isTruthy, PyVal.get]

/-- Witness for the amended claim C3 at the concrete submitted job: a
describe reply whose record carries status RUNNING yields RUNNING, one
whose record lacks the status key yields the sentinel NOTFOUND, and the
fresh job fails with BatchJobSubmissionError. -/
theorem batchJob_status_spec_witness :
    BatchJob.status submittedJob
        [("jobs", .list [.dict [("status", .str "RUNNING")]])] =
      .ok (.str "RUNNING") ∧
    BatchJob.status submittedJob
        [("jobs", .list [.dict [("jobId", .str "job-1")]])] =
      .ok (.str "NOTFOUND") ∧
    BatchJob.status freshJob [] = .error .batchJobSubmissionError := by
  have hne : submittedJob.job_id ≠ .pyNone := by
    intro h
    exact PyVal.noConfusion ((rfl : submittedJob.job_id = PyVal.str "job-1") ▸ h)
  refine ⟨?_, ?_, ?_⟩
  · exact ((batchJob_status_spec submittedJob
      [("jobs", .list [.dict [("status", .str "RUNNING")]])]).2 hne).2
      [("status", .str "RUNNING")] [] rfl
  · exact ((batchJob_status_spec submittedJob
      [("jobs", .list [.dict [("jobId", .str "job-1")]])]).2 hne).2
      [("jobId", .str "job-1")] [] rfl
  · exact (batchJob_status_spec freshJob []).1 rfl

/-- Counterexample to claim C3 as stated: the concrete submitted job
queried against a successful describe reply whose jobs list is empty, so
the reply lacks a status field for the job id, makes status raise
ValueError instead of returning the sentinel NOTFOUND. -/
theorem batchJob_status_counterexample :
    submittedJob.job_id = .str "job-1" ∧
    BatchJob.status submittedJob [("jobs", .list [])] = .error .valueError :=
  ⟨rfl, rfl⟩

/-- Embedding of pendant.aws.logs.LogEvent: the three fields the
constructor copies out of the raw record mapping. -/
structure LogEvent where
  timestamp : PyVal
  message : PyVal
  ingestion_time : PyVal

/-- Embeds LogEvent.__init__, which indexes the record at timestamp, then
message, then ingestionTime; indexing a missing key raises KeyError. -/
def mkLogEvent (record : PyDict) : Except PyError LogEvent := do
  let t ← Pendant.getItem record "timestamp"
  let m ← Pendant.getItem record "message"
  let i ← Pendant.getItem record "ingestionTime"
  return { timestamp := t, message := m, ingestion_time := i }

/-- Claim C10: constructing a LogEvent succeeds, copying the three values
with no defaults, exactly when the record has all of timestamp, message
and ingestionTime, and a missing key raises KeyError naming the first
missing key in that reading order. -/
theorem mkLogEvent_requires_keys (record : PyDict) :
    (pyLookup record "timestamp" = none →
      mkLogEvent record = .error (.keyError "timestamp")) ∧
    (∀ t, pyLookup record "timestamp" = some t →
      pyLookup record "message" = none →
      mkLogEvent record = .error (.keyError "message")) ∧
    (∀ t m, pyLookup record "timestamp" = some t →
      pyLookup record "message" = some m →
      pyLookup record "ingestionTime" = none →
      mkLogEvent record = .error (.keyError "ingestionTime")) ∧
    (∀ t m i, pyLookup record "timestamp" = some t →
      pyLookup record "message" = some m →
      pyLookup record "ingestionTime" = some i →
      mkLogEvent record = .ok ⟨t, m, i⟩) ∧
    ((∃ ev, mkLogEvent record = .ok ev) ↔
      ((pyLookup record "timestamp").isSome ∧
       (pyLookup record "message").isSome ∧
       (pyLookup record "ingestionTime").isSome)) := by
  refine ⟨?_, ?_, ?_, ?_, ?_⟩
  · intro h
    simp [mkLogEvent, Pendant.getItem, h, bind, Except.bind]
  · intro t ht h
    simp [mkLogEvent, Pendant.getItem, ht, h, bind, Except.bind]
  · intro t m ht hm h
    simp [mkLogEvent, Pendant.getItem, ht, hm, h, bind, Except.bind]
  · intro t m i ht hm hi
    simp [mkLogEvent, Pendant.getItem, ht, hm, hi, bind, Except.bind, pure,
      Except.pure]
  · constructor
    · rintro ⟨ev, hev⟩
      cases ht : pyLookup record "timestamp" with
      | none => simp [mkLogEvent, Pendant.getItem, ht, bind, Except.bind] at hev
      | some t =>
        cases hm : pyLookup record "message" with
        | none =>
            simp [mkLogEvent, Pendant.getItem, ht, hm, bind, Except.bind] at hev
        | some m =>
          cases hi : pyLookup record "ingestionTime" with
          | none =>
              simp [mkLogEvent, Pendant.getItem, ht, hm, hi, bind,
                Except.bind] at hev
          | some i => simp [ht, hm, hi]
    · rintro ⟨ht, hm, hi⟩
      obtain ⟨t, ht⟩ := Option.isSome_iff_exists.mp ht
      obtain ⟨m, hm⟩ := Option.isSome_iff_exists.mp hm
      obtain ⟨i, hi⟩ := Option.isSome_iff_exists.mp hi
      exact ⟨⟨t, m, i⟩,
        by simp [mkLogEvent, Pendant.getItem, ht, hm, hi, bind, Except.bind,
          pure, Except.pure]⟩

/-- Witness for claim C10 at a complete record from the source tests and
at records each missing one key. -/
theorem mkLogEvent_requires_keys_witness :
    mkLogEvent [("timestamp", .int 1543809952329),
        ("message", .str "You have started up this demo job"),
        ("ingestionTime", .int 1543809957080)] =
      .ok ⟨.int 1543809952329, .str "You have started up this demo job",
        .int 1543809957080⟩ ∧
    mkLogEvent [("message", .str "a"), ("ingestionTime", .int 2)] =
      .error (.keyError "timestamp") ∧
    mkLogEvent [("timestamp", .int 1), ("ingestionTime", .int 2)] =
      .error (.keyError "message") ∧
    mkLogEvent [("timestamp", .int 1), ("message", .str "a")] =
      .error (.keyError "ingestionTime") := by
  refine ⟨?_, ?_, ?_, ?_⟩
  · exact (mkLogEvent_requires_keys _).2.2.2.1 _ _ _ rfl rfl rfl
  · exact (mkLogEvent_requires_keys _).1 rfl
  · exact (mkLogEvent_requires_keys _).2.1 _ rfl rfl
  · exact (mkLogEvent_requires_keys _).2.2.1 _ _ rfl rfl rfl

namespace AwsLogUtil

end AwsLogUtil

/-- Embeds the match of the source pattern that anchors s3:// at the start
of the path; the dot in the pattern matches any character of the rest, so
the match succeeds exactly on paths beginning with the scheme. -/
def s3SchemeOk (path : String) : Bool :=
  "s3://".data.isPrefixOf path.data

/-- Embedding of pendant.aws.s3.S3Uri: the single stored path field. -/
structure S3Uri where
  path : String
deriving DecidableEq, Repr

/-- Embeds S3Uri.__init__: the assert statement raises AssertionError when
the path does not match the scheme pattern. -/
def mkS3Uri (path : String) : Except PyError S3Uri :=
  if s3SchemeOk path then .ok ⟨path⟩ else .error .assertionError

/-- Embeds the test self.path.endswith(self.delimiter) of the join
operators. -/
def endsWithSlash (path : String) : Bool :=
  match path.data.getLast? with
  | some c => c == '/'
  | none => false

/-- Embeds S3Uri.__truediv__ on a string argument: the delimiter is
inserted unless the path already ends with it, and the result goes back
through the constructor. -/
def S3Uri.truediv (u : S3Uri) (other : String) : Except PyError S3Uri :=
  if endsWithSlash u.path then mkS3Uri (u.path ++ other)
  else mkS3Uri (u.path ++ "/" ++ other)

/-- Embeds S3Uri.__add__ on a string argument: plain concatenation with no
separator, through the constructor. -/
def S3Uri.add (u : S3Uri) (other : String) : Except PyError S3Uri :=
  mkS3Uri (u.path ++ other)

/-- Embeds the S3Uri.bucket property, the search of the source bucket
pattern: after the scheme, the longest run of characters other than the
delimiter; an empty string when the pattern does not match. -/
def S3Uri.bucket (u : S3Uri) : String :=
  if s3SchemeOk u.path then
    ⟨(u.path.data.drop 5).takeWhile (fun c => c != '/')⟩
  else ""

/-- Embeds the S3Uri.key property, the search of the source key pattern:
the pattern requires, after the scheme, a non-empty bucket run, one
delimiter, and a final segment free of the delimiter; an empty string when
the pattern does not match. -/
def S3Uri.key (u : S3Uri) : String :=
  if s3SchemeOk u.path then
    let rest := u.path.data.drop 5
    let b := rest.takeWhile (fun c => c != '/')
    match rest.drop b.length with
    | '/' :: k =>
        if b.isEmpty || k.any (fun c => c == '/') then "" else ⟨k⟩
    | _ => ""
  else ""

lemma s3SchemeOk_iff (p : String) :
    s3SchemeOk p = true ↔ ∃ rest, p = "s3://" ++ rest := by
  unfold s3SchemeOk
  rw [List.isPrefixOf_iff_prefix]
  constructor
  · rintro ⟨t, ht⟩
    refine ⟨⟨t⟩, ?_⟩
    cases hp : p with
    | mk l =>
        apply congrArg String.mk
        rw [hp] at ht
        exact ht.symm
  · rintro ⟨rest, hrest⟩
    subst hrest
    exact ⟨rest.data, (String.data_append _ _).symm⟩

/-- Claim C8: the locator round-trips its structural parts.  The locator
for s3://bucket/key has bucket bucket and key key, the locator for
s3://bucket/ has empty key, joining the locator for s3://bucket with x
equals the locator built from s3://bucket/x, and the join operator is a
pure function on paths that inserts the delimiter exactly when the current
path does not already end with one. -/
theorem s3uri_roundtrip :
    (∀ (u : S3Uri) (s : String),
      S3Uri.truediv u s =
        if endsWithSlash u.path then mkS3Uri (u.path ++ s)
        else mkS3Uri (u.path ++ "/" ++ s)) ∧
    (mkS3Uri "s3://bucket/key").map S3Uri.bucket = .ok "bucket" ∧
    (mkS3Uri "s3://bucket/key").map S3Uri.key = .ok "key" ∧
    (mkS3Uri "s3://bucket/").map S3Uri.key = .ok "" ∧
    (mkS3Uri "s3://bucket").bind (fun u => S3Uri.truediv u "x") =
      mkS3Uri "s3://bucket/x" :=
  ⟨fun u s => rfl, rfl, rfl, rfl, rfl⟩

/-- Claim C9: construction succeeds exactly for paths that begin with the
scheme s3://, and fails with the assertion error otherwise; in particular
it fails on the three inputs of the source tests. -/
theorem s3uri_scheme_validation :
    (∀ p : String, (∃ rest, p = "s3://" ++ rest) → mkS3Uri p = .ok ⟨p⟩) ∧
    (∀ p : String, (¬ ∃ rest, p = "s3://" ++ rest) →
      mkS3Uri p = .error .assertionError) ∧
    mkS3Uri " s3://bucket/" = .error .assertionError ∧
    mkS3Uri "h3://bucket/" = .error .assertionError ∧
    mkS3Uri "s3:/bucket/" = .error .assertionError := by
  refine ⟨?_, ?_, rfl, rfl, rfl⟩
  · intro p hp
    unfold mkS3Uri
    rw [if_pos ((s3SchemeOk_iff p).mpr hp)]
  · intro p hp
    unfold mkS3Uri
    cases hs : s3SchemeOk p with
    | true => exact absurd ((s3SchemeOk_iff p).mp hs) hp
    | false => rfl

/-- Witness for claim C9: a path that begins with the scheme is accepted
unchanged. -/
theorem s3uri_scheme_validation_witness :
    mkS3Uri "s3://demo" = .ok ⟨"s3://demo"⟩ :=
  s3uri_scheme_validation.1 "s3://demo" ⟨"demo", rfl⟩

end Pendant
